import Mathlib

/-!
Verification of the Arti runtime-lifecycle controller exposed by the C
boundary headers `Sources/C/include/arti.h` and
`Frameworks/arti.xcframework/ios-arm64-simulator/Headers/arti.h`.

The repository ships only the boundary headers; the controller body
(state machine, bootstrap reporter, dormancy control) is not present
under `src/`.  Every definition below whose doc comment starts with
`Modelled from the spec:` embeds that missing controller faithfully from
the specification's words; the header documentation (return codes,
parameter shapes) is embedded directly from the two source files.
-/

namespace Arti

/-- Modelled from the spec: the `RuntimeState` of the missing controller
core (spec section 3). `Failed` carries the failure reason. -/
inductive RuntimeState where
  | NotRunning
  | Starting
  | Bootstrapping
  | Running
  | Dormant
  | Failed (reason : String)
  deriving DecidableEq, Repr

/-- Modelled from the spec: the mutable shared state of the missing
controller: the runtime state, the Bootstrap Reporter snapshot
(progress 0-100 and summary text), and the cooperative cancellation
flag checked by the bootstrap driver (spec sections 3 and 5). -/
structure Runtime where
  state : RuntimeState
  progress : Nat
  summary : String
  cancelRequested : Bool
  deriving DecidableEq, Repr

/-- Modelled from the spec: the initial, process-wide singleton state:
`NotRunning`, no bootstrap started, empty reporter. -/
def initRuntime : Runtime :=
  { state := .NotRunning, progress := 0, summary := "", cancelRequested := false }

/-- Modelled from the spec: the external collaborators the controller
drives (filesystem accessibility of the data directory, port
availability, client-instance construction outcome), treated as black
boxes (spec section 1). -/
structure Env where
  accessible : String → Bool
  portFree : Nat → Bool
  initOk : Bool

/-- Modelled from the spec: `data_dir` is valid when it is a non-empty,
accessible path the process can read and write (spec section 4.1). -/
def validDataDir (env : Env) (d : String) : Bool :=
  (!(d == "")) && env.accessible d

/-- Modelled from the spec: `arti_start(data_dir, socks_port)` of the
missing controller.  Fails with -1 when already running (state is not
`NotRunning`), -2 when `data_dir` is invalid, -3 when the port is
invalid or client-instance construction fails; on success it returns 0
immediately after the client instance is constructed, transitioning to
`Starting` with the reporter reset and the cancellation flag cleared.
Asynchronous bootstrap failure is surfaced later as the `Failed` state,
never through this return value (spec sections 4.1 and 7; return codes
from `Sources/C/include/arti.h` lines 10-21). -/
def arti_start (env : Env) (rt : Runtime) (data_dir : String) (socks_port : Nat) :
    Int × Runtime :=
  if rt.state ≠ .NotRunning then (-1, rt)
  else if ¬ validDataDir env data_dir then (-2, rt)
  else if socks_port = 0 ∨ ¬ env.portFree socks_port ∨ ¬ env.initOk then (-3, rt)
  else (0, { state := .Starting, progress := 0, summary := "", cancelRequested := false })

/-- Modelled from the spec: `arti_stop()` of the missing controller.
Fails with -1 and mutates nothing when state is `NotRunning`; otherwise
returns 0, tears the client down, discards the Bootstrap Reporter
contents, transitions to `NotRunning`, and requests cooperative
cancellation of any in-flight bootstrap (spec sections 4.1 and 5;
return codes from `Sources/C/include/arti.h` lines 23-28). -/
def arti_stop (rt : Runtime) : Int × Runtime :=
  if rt.state = .NotRunning then (-1, rt)
  else (0, { state := .NotRunning, progress := 0, summary := "", cancelRequested := true })

/-- Modelled from the spec: `arti_is_running()` — a pure query returning
1 iff the state is one of `Starting`, `Bootstrapping`, `Running`,
`Dormant`, else 0 (spec section 4.1; return values from
`Sources/C/include/arti.h` lines 30-35). -/
def arti_is_running (rt : Runtime) : Int :=
  match rt.state with
  | .Starting => 1
  | .Bootstrapping => 1
  | .Running => 1
  | .Dormant => 1
  | _ => 0

/-- Modelled from the spec: `arti_bootstrap_progress()` — returns the
reporter's current percentage, 0 when no bootstrap has started or after
a reset; never fails (spec section 4.2). -/
def arti_bootstrap_progress (rt : Runtime) : Int :=
  (rt.progress : Int)

/-- Modelled from the spec: `arti_bootstrap_summary(buf, len)` of the
missing controller.  The caller's memory is a character list; `none`
models a null buffer.  When the buffer is present and `len` can hold the
summary plus its terminator, the summary and a NUL byte are written over
the first bytes and the byte count excluding the terminator is returned;
when the buffer is null or the capacity is insufficient, -1 is returned
and the memory is untouched (spec section 4.2; return codes from
`Sources/C/include/arti.h` lines 44-51). -/
def arti_bootstrap_summary (rt : Runtime) (buf : Option (List Char)) (len : Int) :
    Int × Option (List Char) :=
  match buf with
  | none => (-1, none)
  | some mem =>
      if (rt.summary.length + 1 : Int) ≤ len then
        ((rt.summary.length : Int),
          some (rt.summary.data ++ [Char.ofNat 0] ++ mem.drop (rt.summary.length + 1)))
      else (-1, some mem)

/-- Modelled from the spec: `arti_go_dormant()` — succeeds (0) and
transitions to `Dormant` exactly when the state is `Running`; otherwise
fails with -1 without mutating state (spec section 4.4; return codes
from `Sources/C/include/arti.h` lines 53-58). -/
def arti_go_dormant (rt : Runtime) : Int × Runtime :=
  if rt.state = .Running then (0, { rt with state := .Dormant })
  else (-1, rt)

/-- Modelled from the spec: `arti_wake()` — succeeds (0) and transitions
to `Running` exactly when the state is `Dormant`; otherwise fails with
-1 without mutating state (spec section 4.4; return codes from
`Sources/C/include/arti.h` lines 60-65). -/
def arti_wake (rt : Runtime) : Int × Runtime :=
  if rt.state = .Dormant then (0, { rt with state := .Running })
  else (-1, rt)

/-- Modelled from the spec: the events of the combined system — the four
mutating boundary calls plus the bootstrap driver's own transitions
(client construction finishing, a progress checkpoint, bootstrap
completion, asynchronous bootstrap failure), which run on an
independent execution context (spec section 5). -/
inductive Event where
  | start (data_dir : String) (socks_port : Nat)
  | stop
  | goDormant
  | wake
  | constructDone
  | checkpoint (p : Nat) (s : String)
  | finishBootstrap
  | failBootstrap (reason : String)
  deriving DecidableEq, Repr

/-- Modelled from the spec: the bootstrap driver unwinding after
observing a cancellation request: all partially-constructed resources
are released and the state is `NotRunning` with the single-shot flag
consumed (spec section 5). -/
def driverUnwind : Runtime :=
  { state := .NotRunning, progress := 0, summary := "", cancelRequested := false }

/-- Modelled from the spec: one atomic step of the combined system.
Each driver transition first checks the cancellation flag (cooperative
cancellation at each checkpoint); a checkpoint updates the reporter
snapshot monotonically and clamped to 100; completion opens the proxy
and transitions `Bootstrapping` to `Running`; failure from `Starting`
or `Bootstrapping` is surfaced as `Failed` (spec sections 3, 4.1, 5). -/
def step (env : Env) (rt : Runtime) (e : Event) : Runtime :=
  match e with
  | .start d p => (arti_start env rt d p).2
  | .stop => (arti_stop rt).2
  | .goDormant => (arti_go_dormant rt).2
  | .wake => (arti_wake rt).2
  | .constructDone =>
      if rt.cancelRequested then driverUnwind
      else if rt.state = .Starting then { rt with state := .Bootstrapping }
      else rt
  | .checkpoint p s =>
      if rt.cancelRequested then driverUnwind
      else if rt.state = .Bootstrapping then
        { rt with progress := max rt.progress (min p 100), summary := s }
      else rt
  | .finishBootstrap =>
      if rt.cancelRequested then driverUnwind
      else if rt.state = .Bootstrapping then { rt with state := .Running, progress := 100 }
      else rt
  | .failBootstrap r =>
      if rt.cancelRequested then driverUnwind
      else if rt.state = .Starting ∨ rt.state = .Bootstrapping then
        { rt with state := .Failed r }
      else rt

/-- Modelled from the spec: running the system from a state through a
sequence of events. -/
def run (env : Env) (rt : Runtime) : List Event → Runtime
  | [] => rt
  | e :: es => run env (step env rt e) es

/-- A concrete, fully permissive environment used by witnesses. -/
def env0 : Env :=
  { accessible := fun _ => true, portFree := fun _ => true, initOk := true }

/-- A concrete runtime in the `Running` state. -/
def rtRunning : Runtime :=
  { state := .Running, progress := 100, summary := "done", cancelRequested := false }

/-- A concrete runtime in the `Dormant` state. -/
def rtDormant : Runtime :=
  { state := .Dormant, progress := 100, summary := "done", cancelRequested := false }

/-- A concrete runtime in the `Bootstrapping` state. -/
def rtBoot : Runtime :=
  { state := .Bootstrapping, progress := 40, summary := "connecting to network",
    cancelRequested := false }

/-- C1: over every sequence of boundary and driver events from the
initial state, `arti_is_running` returns 1 exactly when the state is
one of `Starting`, `Bootstrapping`, `Running`, `Dormant`, returns 0
otherwise, and never yields any other value; it is a pure total
function of the state, so it never blocks, never fails and never
mutates state. -/
theorem is_running_reflects_state (env : Env) (evs : List Event) :
    (arti_is_running (run env initRuntime evs) = 1 ↔
      ((run env initRuntime evs).state = .Starting ∨
       (run env initRuntime evs).state = .Bootstrapping ∨
       (run env initRuntime evs).state = .Running ∨
       (run env initRuntime evs).state = .Dormant)) ∧
    (arti_is_running (run env initRuntime evs) = 0 ↔
      ¬ ((run env initRuntime evs).state = .Starting ∨
         (run env initRuntime evs).state = .Bootstrapping ∨
         (run env initRuntime evs).state = .Running ∨
         (run env initRuntime evs).state = .Dormant)) ∧
    (arti_is_running (run env initRuntime evs) = 0 ∨
     arti_is_running (run env initRuntime evs) = 1) := by
  rcases h : (run env initRuntime evs).state <;> simp [arti_is_running, h]

/-- C2: calling `arti_start` while the state is not `NotRunning` returns
the already-running code -1 and returns the runtime completely
unchanged: state, bootstrap progress and summary are all untouched. -/
theorem start_already_running (env : Env) (rt : Runtime) (d : String) (p : Nat)
    (h : rt.state ≠ .NotRunning) :
    arti_start env rt d p = (-1, rt) := by
  simp [arti_start, h]

/-- Witness for C2: a second `start` against a `Running` instance
returns -1 and leaves the instance untouched. -/
theorem start_already_running_witness :
    rtRunning.state ≠ RuntimeState.NotRunning ∧
    arti_start env0 rtRunning "/valid/dir" 39050 = (-1, rtRunning) :=
  ⟨by decide, start_already_running env0 rtRunning "/valid/dir" 39050 (by decide)⟩

/-- C4: `arti_stop` called while `NotRunning` returns -1 and performs no
mutation; from every other state it returns 0, resets the state to
`NotRunning` and discards the Bootstrap Reporter contents (progress
back to 0, summary emptied). -/
theorem stop_spec (rt : Runtime) :
    (rt.state = .NotRunning → arti_stop rt = (-1, rt)) ∧
    (rt.state ≠ .NotRunning →
      (arti_stop rt).1 = 0 ∧ (arti_stop rt).2.state = .NotRunning ∧
      (arti_stop rt).2.progress = 0 ∧ (arti_stop rt).2.summary = "") := by
  constructor
  · intro h; simp [arti_stop, h]
  · intro h; simp [arti_stop, h]

/-- Witness for C4: stop from the initial state is rejected with -1 and
no mutation; stop from `Running` succeeds and resets everything. -/
theorem stop_spec_witness :
    arti_stop initRuntime = (-1, initRuntime) ∧
    ((arti_stop rtRunning).1 = 0 ∧ (arti_stop rtRunning).2.state = .NotRunning ∧
      (arti_stop rtRunning).2.progress = 0 ∧ (arti_stop rtRunning).2.summary = "") :=
  ⟨(stop_spec initRuntime).1 rfl, (stop_spec rtRunning).2 (by decide)⟩

/-- C5: `arti_go_dormant` succeeds (0, transitioning to `Dormant`) iff
the state is `Running`; `arti_wake` succeeds (0, transitioning to
`Running`) iff the state is `Dormant`; in every other state each call
fails with -1 and leaves the runtime unchanged, so the pair
`Running ⇄ Dormant` is reachable only from each other through these
operations. -/
theorem dormancy_pair_spec (rt : Runtime) :
    ((arti_go_dormant rt).1 = 0 ↔ rt.state = .Running) ∧
    (rt.state = .Running → arti_go_dormant rt = (0, { rt with state := .Dormant })) ∧
    (rt.state ≠ .Running → arti_go_dormant rt = (-1, rt)) ∧
    ((arti_wake rt).1 = 0 ↔ rt.state = .Dormant) ∧
    (rt.state = .Dormant → arti_wake rt = (0, { rt with state := .Running })) ∧
    (rt.state ≠ .Dormant → arti_wake rt = (-1, rt)) := by
  by_cases h : rt.state = .Running <;> by_cases h2 : rt.state = .Dormant <;>
    simp_all [arti_go_dormant, arti_wake]

/-- Witness for C5: dormancy round trip on concrete runtimes, plus the
failing calls from the wrong states. -/
theorem dormancy_pair_spec_witness :
    arti_go_dormant rtRunning = (0, { rtRunning with state := .Dormant }) ∧
    arti_wake rtDormant = (0, { rtDormant with state := .Running }) ∧
    arti_go_dormant rtBoot = (-1, rtBoot) ∧
    arti_wake rtRunning = (-1, rtRunning) :=
  ⟨(dormancy_pair_spec rtRunning).2.1 rfl,
   (dormancy_pair_spec rtDormant).2.2.2.2.1 rfl,
   (dormancy_pair_spec rtBoot).2.2.1 (by decide),
   (dormancy_pair_spec rtRunning).2.2.2.2.2 (by decide)⟩

/-- C9: the failure codes of the dormancy operations do not distinguish
the kind of wrong state: `arti_wake` returns the same -1 from a
`Running`-but-not-`Dormant` runtime as from a `NotRunning` one, and
`arti_go_dormant` returns the same -1 from a `Bootstrapping` runtime as
from a `NotRunning` one. -/
theorem dormancy_codes_indistinguishable (rt₁ rt₂ rt₃ : Runtime)
    (h₁ : rt₁.state = .Running) (h₂ : rt₂.state = .NotRunning)
    (h₃ : rt₃.state = .Bootstrapping) :
    (arti_wake rt₁).1 = -1 ∧ (arti_wake rt₂).1 = -1 ∧
    (arti_wake rt₁).1 = (arti_wake rt₂).1 ∧
    (arti_go_dormant rt₃).1 = -1 ∧ (arti_go_dormant rt₂).1 = -1 ∧
    (arti_go_dormant rt₃).1 = (arti_go_dormant rt₂).1 := by
  simp [arti_wake, arti_go_dormant, h₁, h₂, h₃]

/-- Witness for C9: the indistinguishable codes at concrete runtimes. -/
theorem dormancy_codes_indistinguishable_witness :
    (arti_wake rtRunning).1 = -1 ∧ (arti_wake initRuntime).1 = -1 ∧
    (arti_wake rtRunning).1 = (arti_wake initRuntime).1 ∧
    (arti_go_dormant rtBoot).1 = -1 ∧ (arti_go_dormant initRuntime).1 = -1 ∧
    (arti_go_dormant rtBoot).1 = (arti_go_dormant initRuntime).1 :=
  dormancy_codes_indistinguishable rtRunning initRuntime rtBoot rfl rfl rfl

/-- C3: whenever `arti_start` succeeds in constructing the client
instance (state was `NotRunning`, the data directory valid, the port
usable and initialization successful), the call returns success 0 with
the state at `Starting`; a later asynchronous bootstrap failure is a
driver event that moves a live attempt to the `Failed` state, observable
through a state query (`arti_is_running` then reports 0), never through
the return value of that `start` call. -/
theorem start_async_failure_not_in_return (env : Env) (rt : Runtime) (d : String) (p : Nat)
    (hstate : rt.state = .NotRunning) (hdir : validDataDir env d = true)
    (hport : p ≠ 0) (hfree : env.portFree p = true) (hinit : env.initOk = true) :
    (arti_start env rt d p).1 = 0 ∧
    (arti_start env rt d p).2.state = .Starting ∧
    (∀ (rt' : Runtime) (r : String), rt'.cancelRequested = false →
      (rt'.state = .Starting ∨ rt'.state = .Bootstrapping) →
      (step env rt' (.failBootstrap r)).state = .Failed r ∧
      arti_is_running (step env rt' (.failBootstrap r)) = 0) := by
  refine ⟨?_, ?_, ?_⟩
  · simp [arti_start, hstate, hdir, hport, hfree, hinit]
  · simp [arti_start, hstate, hdir, hport, hfree, hinit]
  · intro rt' r hc hs
    simp [step, hc, hs, arti_is_running]

/-- Witness for C3: a fresh start returns 0, and a bootstrap failure on
a live `Bootstrapping` attempt lands in `Failed` with `is_running` 0. -/
theorem start_async_failure_witness :
    (arti_start env0 initRuntime "/valid/dir" 39050).1 = 0 ∧
    (step env0 rtBoot (.failBootstrap "io error")).state = .Failed "io error" ∧
    arti_is_running (step env0 rtBoot (.failBootstrap "io error")) = 0 := by
  have h := start_async_failure_not_in_return env0 initRuntime "/valid/dir" 39050
    rfl rfl (by decide) rfl rfl
  exact ⟨h.1, (h.2.2 rtBoot "io error" rfl (Or.inr rfl)).1,
    (h.2.2 rtBoot "io error" rfl (Or.inr rfl)).2⟩

/-- C7: `arti_bootstrap_summary` on a null buffer returns -1 touching
nothing; on a buffer whose capacity `len` cannot hold the summary plus
its terminator it returns -1 and leaves the memory entirely untouched
(so in particular untouched beyond the capacity) rather than silently
truncating; and when the capacity suffices it writes the summary and
terminator over at most `len` bytes — the memory from offset `len` on
is unchanged — and returns the byte count excluding the terminator. -/
theorem summary_buffer_spec (rt : Runtime) (mem : List Char) (len : Int) :
    (arti_bootstrap_summary rt none len = (-1, none)) ∧
    (len < (rt.summary.length + 1 : Int) →
      arti_bootstrap_summary rt (some mem) len = (-1, some mem)) ∧
    ((rt.summary.length + 1 : Int) ≤ len →
      (arti_bootstrap_summary rt (some mem) len).1 = (rt.summary.length : Int) ∧
      (arti_bootstrap_summary rt (some mem) len).2 =
        some (rt.summary.data ++ [Char.ofNat 0] ++ mem.drop (rt.summary.length + 1)) ∧
      (rt.summary.data ++ [Char.ofNat 0] ++ mem.drop (rt.summary.length + 1)).drop len.toNat
        = mem.drop len.toNat ∧
      (rt.summary.data ++ [Char.ofNat 0] ++ mem.drop (rt.summary.length + 1)).take
        rt.summary.length = rt.summary.data) := by
  refine ⟨rfl, ?_, ?_⟩
  · intro h
    simp [arti_bootstrap_summary, not_le.mpr h]
  · intro h
    have hlen : rt.summary.length + 1 ≤ len.toNat := by omega
    refine ⟨?_, ?_, ?_, ?_⟩
    · simp [arti_bootstrap_summary, h]
    · simp [arti_bootstrap_summary, h]
    · have hdata : rt.summary.data.length = rt.summary.length := rfl
      have h1 : (rt.summary.data ++ [Char.ofNat 0]).length = rt.summary.length + 1 := by
        simp [hdata]
      rw [List.append_assoc] at *
      calc (rt.summary.data ++ ([Char.ofNat 0] ++ mem.drop (rt.summary.length + 1))).drop
            len.toNat
          = (rt.summary.data ++ [Char.ofNat 0] ++ mem.drop (rt.summary.length + 1)).drop
            len.toNat := by rw [List.append_assoc]
        _ = mem.drop len.toNat := by
            rw [show len.toNat = (rt.summary.data ++ [Char.ofNat 0]).length +
              (len.toNat - (rt.summary.length + 1)) by simp [hdata]; omega]
            rw [List.drop_append, List.drop_drop]
            congr 1
            omega
    · have hdata : rt.summary.data.length = rt.summary.length := rfl
      rw [List.append_assoc, ← hdata, List.take_left]

/-- Witness for C7: a 21-byte pending summary against capacity 2 is
rejected with -1 and an untouched buffer, while capacity 32 succeeds
and returns the byte count. -/
theorem summary_buffer_spec_witness :
    arti_bootstrap_summary rtBoot
      (some ['a','b','c','d','e','f','g','h','i','j']) 2
      = (-1, some ['a','b','c','d','e','f','g','h','i','j']) ∧
    (arti_bootstrap_summary rtBoot
      (some ['a','b','c','d','e','f','g','h','i','j']) 32).1
      = (rtBoot.summary.length : Int) :=
  ⟨(summary_buffer_spec rtBoot ['a','b','c','d','e','f','g','h','i','j'] 2).2.1
      (by decide),
   ((summary_buffer_spec rtBoot ['a','b','c','d','e','f','g','h','i','j'] 32).2.2
      (by decide)).1⟩

/-- Does this event model a call to `arti_start`? -/
def isStartEvent : Event → Bool
  | .start _ _ => true
  | _ => false

/-- A list of events containing no `start` call. -/
def noStart (evs : List Event) : Bool :=
  evs.all (fun e => !(isStartEvent e))

/-- Helper: every event other than a `start` call keeps a `NotRunning`
runtime in `NotRunning`. -/
theorem notRunning_absorbing (env : Env) (rt : Runtime) (e : Event)
    (h : rt.state = .NotRunning) (he : isStartEvent e = false) :
    (step env rt e).state = .NotRunning := by
  cases e with
  | start d p => simp [isStartEvent] at he
  | stop => simp [step, arti_stop, h]
  | goDormant => simp [step, arti_go_dormant, h]
  | wake => simp [step, arti_wake, h]
  | constructDone =>
      by_cases hc : rt.cancelRequested <;> simp [step, hc, h, driverUnwind]
  | checkpoint p s =>
      by_cases hc : rt.cancelRequested <;> simp [step, hc, h, driverUnwind]
  | finishBootstrap =>
      by_cases hc : rt.cancelRequested <;> simp [step, hc, h, driverUnwind]
  | failBootstrap r =>
      by_cases hc : rt.cancelRequested <;> simp [step, hc, h, driverUnwind]

/-- Helper: without a `start` call, a `NotRunning` runtime stays
`NotRunning` across any event sequence. -/
theorem notRunning_run (env : Env) (evs : List Event) :
    ∀ rt : Runtime, rt.state = .NotRunning → noStart evs = true →
    (run env rt evs).state = .NotRunning := by
  induction evs with
  | nil => intro rt h _; exact h
  | cons e es ih =>
      intro rt h hn
      rw [noStart, List.all_cons, Bool.and_eq_true] at hn
      exact ih (step env rt e)
        (notRunning_absorbing env rt e h (by simpa using hn.1)) hn.2

/-- C8: a `stop` issued while a trace has reached `Bootstrapping`
succeeds, transitions directly to `NotRunning` so that `arti_is_running`
already reports 0 (within zero, hence within one, cancellation
checkpoints); the bootstrap driver's next progress checkpoint observes
the cancellation and leaves the state `NotRunning`; and no sequence of
further events free of a new `start` call can ever reach `Running` in
that attempt. -/
theorem stop_during_bootstrap_cancels (env : Env) (evs : List Event)
    (h : (run env initRuntime evs).state = .Bootstrapping) :
    (arti_stop (run env initRuntime evs)).1 = 0 ∧
    (arti_stop (run env initRuntime evs)).2.state = .NotRunning ∧
    arti_is_running (arti_stop (run env initRuntime evs)).2 = 0 ∧
    (∀ p s, (step env (arti_stop (run env initRuntime evs)).2 (.checkpoint p s)).state
      = .NotRunning) ∧
    (∀ devs, noStart devs = true →
      (run env (arti_stop (run env initRuntime evs)).2 devs).state ≠ .Running) := by
  have hne : (run env initRuntime evs).state ≠ .NotRunning := by
    rw [h]; exact fun hc => RuntimeState.noConfusion hc
  have hstop : (arti_stop (run env initRuntime evs)).2.state = .NotRunning := by
    simp [arti_stop, hne]
  refine ⟨by simp [arti_stop, hne], hstop, by simp [arti_is_running, hstop], ?_, ?_⟩
  · intro p s
    exact notRunning_absorbing env _ _ hstop rfl
  · intro devs hd
    rw [notRunning_run env devs _ hstop hd]
    exact fun hc => RuntimeState.noConfusion hc

/-- Witness for C8: after starting and finishing client construction
the state is `Bootstrapping`; stopping there returns 0, reports not
running, and a following checkpoint plus completion attempt never
reaches `Running`. -/
theorem stop_during_bootstrap_witness :
    (arti_stop (run env0 initRuntime [.start "/valid/dir" 39050, .constructDone])).1 = 0 ∧
    arti_is_running
      (arti_stop (run env0 initRuntime [.start "/valid/dir" 39050, .constructDone])).2 = 0 ∧
    (run env0
      (arti_stop (run env0 initRuntime [.start "/valid/dir" 39050, .constructDone])).2
      [.checkpoint 50 "x", .finishBootstrap]).state ≠ .Running := by
  have h := stop_during_bootstrap_cancels env0 [.start "/valid/dir" 39050, .constructDone]
    (by decide)
  exact ⟨h.1, h.2.2.1, h.2.2.2.2 [.checkpoint 50 "x", .finishBootstrap] (by decide)⟩

/-- Helper: one system step keeps the reporter's percentage within
0-100. -/
theorem progress_le_100_step (env : Env) (rt : Runtime) (e : Event)
    (h : rt.progress ≤ 100) : (step env rt e).progress ≤ 100 := by
  cases e with
  | start d p =>
      simp only [step, arti_start]
      split
      · exact h
      · split
        · exact h
        · split
          · exact h
          · exact Nat.zero_le 100
  | stop =>
      simp only [step, arti_stop]
      split
      · exact h
      · exact Nat.zero_le 100
  | goDormant =>
      simp only [step, arti_go_dormant]
      split <;> exact h
  | wake =>
      simp only [step, arti_wake]
      split <;> exact h
  | constructDone =>
      simp only [step]
      split
      · exact Nat.zero_le 100
      · split <;> exact h
  | checkpoint p s =>
      simp only [step]
      split
      · exact Nat.zero_le 100
      · split
        · exact max_le h (min_le_right p 100)
        · exact h
  | finishBootstrap =>
      simp only [step]
      split
      · exact Nat.zero_le 100
      · split
        · exact le_refl 100
        · exact h
  | failBootstrap r =>
      simp only [step]
      split
      · exact Nat.zero_le 100
      · split <;> exact h

/-- Helper: along any run the reporter's percentage stays within
0-100. -/
theorem progress_le_100_run (env : Env) (evs : List Event) :
    ∀ rt : Runtime, rt.progress ≤ 100 → (run env rt evs).progress ≤ 100 := by
  induction evs with
  | nil => intro rt h; exact h
  | cons e es ih =>
      intro rt h
      exact ih (step env rt e) (progress_le_100_step env rt e h)

/-- Helper: a step whose resulting state is neither `NotRunning` nor
`Starting` never decreases the reporter's percentage, provided the
percentage was within range. -/
theorem progress_mono_step (env : Env) (rt : Runtime) (e : Event)
    (h100 : rt.progress ≤ 100)
    (h1 : (step env rt e).state ≠ .NotRunning)
    (h2 : (step env rt e).state ≠ .Starting) :
    rt.progress ≤ (step env rt e).progress := by
  cases e <;>
    (simp only [step, arti_start, arti_stop, arti_go_dormant, arti_wake] at h1 h2 ⊢
     split_ifs at h1 h2 ⊢ <;> simp_all [driverUnwind])

/-- C6 counterexample: the claim says the progress value is reset to 0
only when a new `Starting` phase begins, but `stop` discards the
Bootstrap Reporter contents: after a checkpoint at 50, a `stop` step
leaves progress at 0 while the resulting state is `NotRunning`, not
`Starting`. -/
theorem progress_reset_by_stop_counterexample :
    arti_bootstrap_progress (run env0 initRuntime
      [.start "/valid/dir" 39050, .constructDone, .checkpoint 50 "s"]) = 50 ∧
    (step env0 (run env0 initRuntime
      [.start "/valid/dir" 39050, .constructDone, .checkpoint 50 "s"]) .stop).state
      = .NotRunning ∧
    (step env0 (run env0 initRuntime
      [.start "/valid/dir" 39050, .constructDone, .checkpoint 50 "s"]) .stop).state
      ≠ .Starting ∧
    arti_bootstrap_progress (step env0 (run env0 initRuntime
      [.start "/valid/dir" 39050, .constructDone, .checkpoint 50 "s"]) .stop) = 0 := by
  decide

/-- C6 amended: over every trace from the initial state,
`arti_bootstrap_progress` returns a value in 0-100, returns 0 before
any bootstrap has started, never fails; every step whose resulting
state stays inside a bootstrap attempt (neither `NotRunning` nor a
fresh `Starting`) leaves the value greater than or equal to its
previous value; and the value is reset to a smaller one only by a step
that begins a new `Starting` phase or discards the reporter by
transitioning to `NotRunning` (a `stop` or a cancellation unwind). -/
theorem bootstrap_progress_amended (env : Env) (evs : List Event) (e : Event) :
    0 ≤ arti_bootstrap_progress (run env initRuntime evs) ∧
    arti_bootstrap_progress (run env initRuntime evs) ≤ 100 ∧
    arti_bootstrap_progress initRuntime = 0 ∧
    ((step env (run env initRuntime evs) e).state ≠ .NotRunning →
      (step env (run env initRuntime evs) e).state ≠ .Starting →
      arti_bootstrap_progress (run env initRuntime evs) ≤
        arti_bootstrap_progress (step env (run env initRuntime evs) e)) ∧
    (arti_bootstrap_progress (step env (run env initRuntime evs) e) <
        arti_bootstrap_progress (run env initRuntime evs) →
      ((step env (run env initRuntime evs) e).state = .Starting ∨
       (step env (run env initRuntime evs) e).state = .NotRunning)) := by
  have h100 : (run env initRuntime evs).progress ≤ 100 :=
    progress_le_100_run env evs initRuntime (Nat.zero_le 100)
  refine ⟨?_, ?_, rfl, ?_, ?_⟩
  · exact Int.ofNat_nonneg _
  · show ((run env initRuntime evs).progress : Int) ≤ 100
    exact_mod_cast h100
  · intro h1 h2
    show ((run env initRuntime evs).progress : Int) ≤
      ((step env (run env initRuntime evs) e).progress : Int)
    exact_mod_cast progress_mono_step env (run env initRuntime evs) e h100 h1 h2
  · intro hlt
    by_contra hc
    push_neg at hc
    have hm : ((run env initRuntime evs).progress : Int) ≤
        ((step env (run env initRuntime evs) e).progress : Int) := by
      exact_mod_cast progress_mono_step env (run env initRuntime evs) e h100 hc.2 hc.1
    exact absurd hm (not_le.mpr hlt)

/-- Witness for C6 amended: a checkpoint step within the attempt keeps
the percentage non-decreasing on a concrete trace. -/
theorem bootstrap_progress_amended_witness :
    arti_bootstrap_progress (run env0 initRuntime
      [.start "/valid/dir" 39050, .constructDone, .checkpoint 30 "a"]) ≤
    arti_bootstrap_progress (step env0 (run env0 initRuntime
      [.start "/valid/dir" 39050, .constructDone, .checkpoint 30 "a"])
      (.checkpoint 60 "b")) :=
  (bootstrap_progress_amended env0
    [.start "/valid/dir" 39050, .constructDone, .checkpoint 30 "a"]
    (.checkpoint 60 "b")).2.2.2.1 (by decide) (by decide)

/-! ## The two boundary headers

Embedded directly from `Sources/C/include/arti.h` and
`Frameworks/arti.xcframework/ios-arm64-simulator/Headers/arti.h`:
each declared operation with its parameter types, return type, and the
success and failure return codes its documentation enumerates. -/

/-- The C types appearing in the two headers' declarations. -/
inductive CType where
  | int32T
  | intT
  | uint16T
  | constCharPtr
  | charPtr
  deriving DecidableEq, Repr

/-- One declared boundary function: name, return type, parameter types,
and the success and failure return codes enumerated by its
documentation comment. -/
structure CFunDecl where
  name : String
  ret : CType
  params : List CType
  successCodes : List Int
  failureCodes : List Int
  deriving DecidableEq, Repr

/-- The seven declarations of `Sources/C/include/arti.h`, in order. -/
def sourcesArtiHeader : List CFunDecl :=
  [ { name := "arti_start", ret := .int32T, params := [.constCharPtr, .uint16T],
      successCodes := [0], failureCodes := [-1, -2, -3, -4] },
    { name := "arti_stop", ret := .int32T, params := [],
      successCodes := [0], failureCodes := [-1] },
    { name := "arti_is_running", ret := .int32T, params := [],
      successCodes := [1, 0], failureCodes := [] },
    { name := "arti_bootstrap_progress", ret := .int32T, params := [],
      successCodes := [], failureCodes := [] },
    { name := "arti_bootstrap_summary", ret := .int32T, params := [.charPtr, .int32T],
      successCodes := [], failureCodes := [-1] },
    { name := "arti_go_dormant", ret := .int32T, params := [],
      successCodes := [0], failureCodes := [-1] },
    { name := "arti_wake", ret := .int32T, params := [],
      successCodes := [0], failureCodes := [-1] } ]

/-- The seven declarations of
`Frameworks/arti.xcframework/ios-arm64-simulator/Headers/arti.h`,
in order. -/
def frameworkArtiHeader : List CFunDecl :=
  [ { name := "arti_start", ret := .intT, params := [.constCharPtr, .uint16T],
      successCodes := [0], failureCodes := [-1, -2, -3, -4] },
    { name := "arti_stop", ret := .intT, params := [],
      successCodes := [0], failureCodes := [-1] },
    { name := "arti_is_running", ret := .intT, params := [],
      successCodes := [1, 0], failureCodes := [] },
    { name := "arti_bootstrap_progress", ret := .intT, params := [],
      successCodes := [], failureCodes := [] },
    { name := "arti_bootstrap_summary", ret := .intT, params := [.charPtr, .intT],
      successCodes := [], failureCodes := [] ++ [-1] },
    { name := "arti_go_dormant", ret := .intT, params := [],
      successCodes := [0], failureCodes := [-1] },
    { name := "arti_wake", ret := .intT, params := [],
      successCodes := [0], failureCodes := [-1] } ]

/-- Two C types are equivalent when they denote the same machine type on
the target platform, where `int` is the same 32-bit integer as
`int32_t`. -/
def tyEquiv : CType → CType → Bool
  | .int32T, .int32T => true
  | .int32T, .intT => true
  | .intT, .int32T => true
  | .intT, .intT => true
  | .uint16T, .uint16T => true
  | .constCharPtr, .constCharPtr => true
  | .charPtr, .charPtr => true
  | _, _ => false

/-- Two declarations match when they declare the same name with
equivalent return and parameter types and identical documented success
and failure codes. -/
def declEquiv (a b : CFunDecl) : Bool :=
  a.name == b.name && tyEquiv a.ret b.ret &&
  a.params.length == b.params.length &&
  (List.zip a.params b.params).all (fun q => tyEquiv q.1 q.2) &&
  a.successCodes == b.successCodes && a.failureCodes == b.failureCodes

/-- Two headers match when they declare the same operations in the same
order, pairwise matching. -/
def headerEquiv (h₁ h₂ : List CFunDecl) : Bool :=
  h₁.length == h₂.length && (List.zip h₁ h₂).all (fun q => declEquiv q.1 q.2)

/-- C10: the two boundary headers declare the same seven operations —
`arti_start`, `arti_stop`, `arti_is_running`, `arti_bootstrap_progress`,
`arti_bootstrap_summary`, `arti_go_dormant`, `arti_wake` — with
equivalent parameter lists and identical documented success and failure
return codes for every operation, the return types `int32_t` and `int`
being the same 32-bit integer on the target platform. -/
theorem headers_declare_same_boundary :
    sourcesArtiHeader.length = 7 ∧
    headerEquiv sourcesArtiHeader frameworkArtiHeader = true ∧
    sourcesArtiHeader.map (fun d => d.name) =
      ["arti_start", "arti_stop", "arti_is_running", "arti_bootstrap_progress",
       "arti_bootstrap_summary", "arti_go_dormant", "arti_wake"] := by
  refine ⟨rfl, by decide, rfl⟩

end Arti
